import Mathlib

/-!
Verification development for the retrieval core of a RAG application.

The embedded code comes from:
  app/retriever/local_retriever.py   (LocalRetriever: load_embeddings, search, format_context)
  app/retriever/retriever.py         (SupabaseRetriever: match_documents SQL, search, format_context)
  app/retriever/factory.py           (get_retriever)
  app/embeddings/gemini_embedder.py  (GeminiEmbedder.embed_chunks)
  app/config/settings.py             (Settings.TOP_K_RESULTS)

Real numbers of the Python/torch code are modelled by rationals, tensors by
lists of rationals, and Python dict records by structures with the fields the
code reads.  Exceptions raised by the Python code are modelled by Except
error values.
-/

namespace Rag

/-- Decidable equality on Except values, used to evaluate concrete runs. -/
instance {e a : Type} [DecidableEq e] [DecidableEq a] : DecidableEq (Except e a) :=
  fun x y =>
    match x, y with
    | .ok v, .ok w =>
      if h : v = w then .isTrue (by rw [h]) else .isFalse (fun hc => h (Except.ok.inj hc))
    | .ok _, .error _ => .isFalse (fun hc => Except.noConfusion hc)
    | .error _, .ok _ => .isFalse (fun hc => Except.noConfusion hc)
    | .error v, .error w =>
      if h : v = w then .isTrue (by rw [h]) else .isFalse (fun hc => h (Except.error.inj hc))

/-- Dot product of two rational vectors; models the per-row result of
torch.mm(query_tensor, self.embeddings.T) in LocalRetriever.search. -/
def dot (a b : List ℚ) : ℚ :=
  (List.zipWith (fun x y => x * y) a b).sum

/-- One chunk dictionary as produced by the ingestion chunker and read by
LocalRetriever: the text keys are optional because format_context reads them
with doc.get fallbacks. -/
structure Chunk where
  page_number : Int
  sentence_chunk : Option String
  chunk_text : Option String
deriving DecidableEq

/-- Default value used to total List.getD lookups that the code guards. -/
def defaultChunk : Chunk :=
  { page_number := 0, sentence_chunk := none, chunk_text := none }

/-- One search result of LocalRetriever.search: a copy of the matched chunk
dict extended with the keys similarity (the raw dot-product score) and
id (the original position idx.item() of the passage). -/
structure Doc where
  chunk : Chunk
  similarity : ℚ
  id : ℕ
deriving DecidableEq

/-- Error kinds raisable by LocalRetriever.search: notLoaded models the
ValueError of the embeddings-is-None check, shapeMismatch the RuntimeError of
torch.mm on incompatible shapes, topkOutOfRange the RuntimeError of torch.topk
when k is negative or exceeds the score count, indexError the IndexError of
self.chunks on an index beyond its length. -/
inductive LocalError where
  | notLoaded
  | shapeMismatch
  | topkOutOfRange
  | indexError
deriving DecidableEq

/-- State of a LocalRetriever: the two fields that __init__ may leave as None
and that load_embeddings populates. -/
structure LocalRetriever where
  embeddings : Option (List (List ℚ))
  chunks : Option (List Chunk)
deriving DecidableEq

/-- LocalRetriever.load_embeddings: replaces both fields. -/
def LocalRetriever.load_embeddings (_r : LocalRetriever)
    (embeddings : List (List ℚ)) (chunks : List Chunk) : LocalRetriever :=
  { embeddings := some embeddings, chunks := some chunks }

/-- Descending comparison on (score, index) pairs, used to model the order in
which torch.topk(..., k) returns its (values, indices): values sorted from
largest to smallest. -/
def scoreGe (a b : ℚ × ℕ) : Prop := b.1 ≤ a.1

instance : DecidableRel scoreGe :=
  fun a b => inferInstanceAs (Decidable (b.1 ≤ a.1))

instance : IsTotal (ℚ × ℕ) scoreGe :=
  ⟨fun a b => le_total b.1 a.1⟩

instance : IsTrans (ℚ × ℕ) scoreGe :=
  ⟨fun _ _ _ hab hbc => le_trans hbc hab⟩

/-- Scores paired with their positions, as torch.topk reports indices into the
score tensor. -/
def enumScores (scores : List ℚ) : List (ℚ × ℕ) :=
  (List.range scores.length).map (fun i => (scores.getD i 0, i))

/-- Model of torch.topk(input=scores, k): raises (RuntimeError, modelled as
topkOutOfRange) unless 0 <= k <= len(scores), otherwise returns the k
highest (value, index) pairs with values sorted descending. -/
def topk (scores : List ℚ) (k : Int) : Except LocalError (List (ℚ × ℕ)) :=
  if 0 ≤ k ∧ k ≤ (scores.length : Int) then
    .ok ((List.insertionSort scoreGe (enumScores scores)).take k.toNat)
  else .error .topkOutOfRange

/-- LocalRetriever.search.  topKResults stands for settings.TOP_K_RESULTS;
top_k = none models the Python default top_k=None, and the substitution
models the Python expression top_k = top_k or settings.TOP_K_RESULTS, under
which both None and 0 are falsy.  The shape guard models torch.mm requiring
the query length to equal the embedding row width; the final guard models the
IndexError that self.chunks[idx.item()] would raise. -/
def LocalRetriever.search (topKResults : Int) (r : LocalRetriever)
    (query_embedding : List ℚ) (top_k : Option Int) :
    Except LocalError (List Doc) :=
  match r.embeddings, r.chunks with
  | none, _ => .error .notLoaded
  | some _, none => .error .notLoaded
  | some emb, some chunks =>
    let k : Int :=
      match top_k with
      | none => topKResults
      | some t => if t = 0 then topKResults else t
    if emb.all (fun row => row.length = query_embedding.length) then
      let dot_scores : List ℚ := emb.map (fun row => dot query_embedding row)
      match topk dot_scores k with
      | .error e => .error e
      | .ok pairs =>
        if pairs.all (fun p => p.2 < chunks.length) then
          .ok (pairs.map (fun p =>
            { chunk := chunks.getD p.2 defaultChunk,
              similarity := p.1, id := p.2 }))
        else .error .indexError
    else .error .shapeMismatch

/-- LocalRetriever.format_context: empty input yields the sentinel, otherwise
each document contributes doc.get with sentence_chunk falling back to
chunk_text falling back to the empty string, joined as bullet items. -/
def LocalRetriever.format_context (documents : List Doc) : String :=
  if documents.isEmpty then "No relevant context found."
  else "- " ++ String.intercalate "\n- "
    (documents.map (fun d => d.chunk.sentence_chunk.getD (d.chunk.chunk_text.getD "")))

/-- One row of the documents table behind the Supabase match_documents RPC. -/
structure StoredRow where
  id : Int
  page_number : Int
  chunk_text : String
  chunk_char_count : Int
  chunk_word_count : Int
  chunk_token_count : ℚ
  embedding : List ℚ
deriving DecidableEq

/-- One row returned by match_documents: the table columns plus the computed
similarity column. -/
structure MatchedRow where
  id : Int
  page_number : Int
  chunk_text : String
  chunk_char_count : Int
  chunk_word_count : Int
  chunk_token_count : ℚ
  similarity : ℚ
deriving DecidableEq

/-- Ascending comparison by a rational key, used to model ORDER BY on the
distance expression. -/
def keyLe {α : Type} (f : α → ℚ) (a b : α) : Prop := f a ≤ f b

instance {α : Type} (f : α → ℚ) : DecidableRel (keyLe f) :=
  fun a b => inferInstanceAs (Decidable (f a ≤ f b))

instance {α : Type} (f : α → ℚ) : IsTotal α (keyLe f) :=
  ⟨fun a b => le_total (f a) (f b)⟩

instance {α : Type} (f : α → ℚ) : IsTrans α (keyLe f) :=
  ⟨fun _ _ _ hab hbc => le_trans hab hbc⟩

/-- The match_documents SQL function from the SupabaseRetriever docstring:
keep the rows whose similarity 1 - (embedding <=> query_embedding) strictly
exceeds match_threshold, order them by the distance expression ascending, cap
at match_count, and emit the columns plus the similarity.  The vector
extension's distance operator <=> is abstracted as the parameter dist. -/
def matchDocuments (dist : List ℚ → List ℚ → ℚ) (documents : List StoredRow)
    (query_embedding : List ℚ) (match_threshold : ℚ) (match_count : ℕ) :
    List MatchedRow :=
  (((documents.filter
      (fun r => decide (1 - dist r.embedding query_embedding > match_threshold))).insertionSort
        (keyLe (fun r => dist r.embedding query_embedding))).take match_count).map
    (fun r =>
      { id := r.id, page_number := r.page_number, chunk_text := r.chunk_text,
        chunk_char_count := r.chunk_char_count,
        chunk_word_count := r.chunk_word_count,
        chunk_token_count := r.chunk_token_count,
        similarity := 1 - dist r.embedding query_embedding })

/-- Error kind for the remote backend: the store rejecting the call (for
instance a negative LIMIT), surfaced by the re-raise in search. -/
inductive SupaError where
  | storeError
deriving DecidableEq

/-- Default of the similarity_threshold parameter of
SupabaseRetriever.search. -/
def similarity_threshold_default : ℚ := 1 / 2

/-- SupabaseRetriever.search: substitutes settings.TOP_K_RESULTS for a falsy
top_k (None or 0) and executes the match_documents RPC against the store,
modelled by its table and distance operator; a successful call returns
result.data unchanged, empty or not.  A negative match_count is rejected by
the store (negative LIMIT), modelled as storeError. -/
def SupabaseRetriever.search (dist : List ℚ → List ℚ → ℚ)
    (table : List StoredRow) (topKResults : Int) (query_embedding : List ℚ)
    (top_k : Option Int) (similarity_threshold : ℚ) :
    Except SupaError (List MatchedRow) :=
  let k : Int :=
    match top_k with
    | none => topKResults
    | some t => if t = 0 then topKResults else t
  if 0 ≤ k then
    .ok (matchDocuments dist table query_embedding similarity_threshold k.toNat)
  else .error .storeError

/-- SupabaseRetriever.format_context: empty input yields the sentinel,
otherwise each row contributes its chunk_text as a bullet item. -/
def SupabaseRetriever.format_context (documents : List MatchedRow) : String :=
  if documents.isEmpty then "No relevant context found."
  else "- " ++ String.intercalate "\n- " (documents.map (fun d => d.chunk_text))

/-- The value returned by the retriever factory: either a LocalRetriever
constructed from the supplied embeddings and chunks, or a SupabaseRetriever. -/
inductive Retriever where
  | localR (r : LocalRetriever)
  | supabaseR
deriving DecidableEq

/-- Error kind of the factory: the ValueError raised on an unrecognized mode
(the InvalidConfiguration kind of the specification taxonomy). -/
inductive FactoryError where
  | invalidConfiguration
deriving DecidableEq

/-- get_retriever from app/retriever/factory.py. -/
def get_retriever (mode : String) (embeddings : Option (List (List ℚ)))
    (chunks : Option (List Chunk)) : Except FactoryError Retriever :=
  if mode = "local" then
    .ok (.localR { embeddings := embeddings, chunks := chunks })
  else if mode = "supabase" then .ok .supabaseR
  else .error .invalidConfiguration

/-- GeminiEmbedder.embed_chunks.  The Python loop walks the chunks in batches
of batch_size but embeds each chunk individually in order, so its net effect
on the returned list is a per-chunk map; embed_text (which may fail) is
abstracted as the embed parameter, and the except branch appends
np.zeros(self.embedding_dimension) in place of a failed chunk. -/
def GeminiEmbedder.embed_chunks (embed : String → Except String (List ℚ))
    (embedding_dimension : ℕ) (chunks : List String) : List (List ℚ) :=
  chunks.map (fun chunk =>
    match embed chunk with
    | .ok embedding => embedding
    | .error _ => List.replicate embedding_dimension 0)

/-- Accumulating decimal parser over the remaining characters. -/
def parseNatAux : List Char → ℕ → Option ℕ
  | [], acc => some acc
  | c :: cs, acc =>
    if c.isDigit then parseNatAux cs (acc * 10 + (c.toNat - 48)) else none

/-- Decimal digits to a natural number; empty input is rejected. -/
def parseNat : List Char → Option ℕ
  | [] => none
  | c :: cs => parseNatAux (c :: cs) 0

/-- Model of Python int() on an optionally negated decimal string; int()
raising ValueError on non-numeric input is modelled by none. -/
def strToInt (s : String) : Option Int :=
  match s.data with
  | [] => none
  | c :: cs =>
    if c = Char.ofNat 45 then (parseNat cs).map (fun n => -(n : Int))
    else (parseNat (c :: cs)).map (fun n => (n : Int))

/-- Model of os.getenv(key, default) over an association-list environment. -/
def getenv (env : List (String × String)) (key : String) (default : String) :
    String :=
  match env.find? (fun p => p.1 == key) with
  | some p => p.2
  | none => default

/-- Settings.TOP_K_RESULTS = int(os.getenv("TOP_K_RESULTS", "5")); int()
raising on a non-numeric string is modelled by Option. -/
def Settings.TOP_K_RESULTS (env : List (String × String)) : Option Int :=
  strToInt (getenv env "TOP_K_RESULTS" "5")

/-- Embedding matrix of the three-passage scenario index: v1, v2, v3. -/
def scenarioEmb : List (List ℚ) := [[1, 0], [0, 1], [7/10, 7/10]]

/-- Chunks of the three-passage scenario index. -/
def scenarioChunks : List Chunk :=
  [{ page_number := 1, sentence_chunk := some "c1", chunk_text := none },
   { page_number := 2, sentence_chunk := some "c2", chunk_text := none },
   { page_number := 3, sentence_chunk := some "c3", chunk_text := none }]

/-- The three-passage scenario index, loaded. -/
def scenarioRetriever : LocalRetriever :=
  { embeddings := some scenarioEmb, chunks := some scenarioChunks }

/-- Embedding matrix of a five-passage index with scores 1..5 for query x1. -/
def emb5 : List (List ℚ) := [[1], [2], [3], [4], [5]]

/-- Chunks of the five-passage index. -/
def chunks5 : List Chunk :=
  [{ page_number := 1, sentence_chunk := some "p1", chunk_text := none },
   { page_number := 2, sentence_chunk := some "p2", chunk_text := none },
   { page_number := 3, sentence_chunk := some "p3", chunk_text := none },
   { page_number := 4, sentence_chunk := some "p4", chunk_text := none },
   { page_number := 5, sentence_chunk := some "p5", chunk_text := none }]

/-- The five-passage index, loaded. -/
def retriever5 : LocalRetriever := { embeddings := some emb5, chunks := some chunks5 }

/-- Embedding matrix of a six-passage index with scores 1..6 for query x1. -/
def emb6 : List (List ℚ) := [[1], [2], [3], [4], [5], [6]]

/-- Chunks of the six-passage index. -/
def chunks6 : List Chunk :=
  [{ page_number := 1, sentence_chunk := some "q1", chunk_text := none },
   { page_number := 2, sentence_chunk := some "q2", chunk_text := none },
   { page_number := 3, sentence_chunk := some "q3", chunk_text := none },
   { page_number := 4, sentence_chunk := some "q4", chunk_text := none },
   { page_number := 5, sentence_chunk := some "q5", chunk_text := none },
   { page_number := 6, sentence_chunk := some "q6", chunk_text := none }]

/-- The six-passage index, loaded. -/
def retriever6 : LocalRetriever := { embeddings := some emb6, chunks := some chunks6 }

/-- One stored row of the remote documents table used for concrete runs. -/
def rowA : StoredRow :=
  { id := 1, page_number := 1, chunk_text := "remote passage",
    chunk_char_count := 14, chunk_word_count := 2, chunk_token_count := 7/2,
    embedding := [1, 0] }

end Rag

namespace Rag

lemma mem_enumScores {s : List ℚ} {p : ℚ × ℕ} (hp : p ∈ enumScores s) :
    p.2 < s.length ∧ p.1 = s.getD p.2 0 := by
  unfold enumScores at hp
  obtain ⟨i, hi, rfl⟩ := List.mem_map.mp hp
  exact ⟨List.mem_range.mp hi, rfl⟩

lemma getD_map_dot (q : List ℚ) (emb : List (List ℚ)) : ∀ i, i < emb.length →
    (emb.map (fun row => dot q row)).getD i 0 = dot q (emb.getD i []) := by
  induction emb with
  | nil => intro i h; simp at h
  | cons row rest ih =>
    intro i h
    cases i with
    | zero => rfl
    | succ j => exact ih j (by simpa using h)

lemma search_ok_elim {dK : Int} {r : LocalRetriever} {q : List ℚ} {t : Option Int}
    {docs : List Doc} (h : LocalRetriever.search dK r q t = .ok docs) :
    ∃ emb ch n,
      r.embeddings = some emb ∧ r.chunks = some ch ∧
      docs =
        ((List.insertionSort scoreGe
            (enumScores (emb.map (fun row => dot q row)))).take n).map
          (fun p => { chunk := ch.getD p.2 defaultChunk, similarity := p.1, id := p.2 }) ∧
      ∀ p ∈ (List.insertionSort scoreGe
          (enumScores (emb.map (fun row => dot q row)))).take n, p.2 < ch.length := by
  obtain ⟨oe, oc⟩ := r
  cases oe with
  | none => simp [LocalRetriever.search] at h
  | some emb =>
    cases oc with
    | none => simp [LocalRetriever.search] at h
    | some ch =>
      simp only [LocalRetriever.search, topk] at h
      split at h
      · split at h
        · simp at h
        · rename_i pairs heq
          split at heq
          · replace heq := Except.ok.inj heq
            subst heq
            split at h
            · rename_i hall
              refine ⟨emb, ch, _, rfl, rfl, (Except.ok.inj h).symm, ?_⟩
              intro p hp
              have := List.all_eq_true.mp hall p hp
              simpa using this
            · simp at h
          · simp at heq
      · simp at h

lemma matchDocuments_mem {dist : List ℚ → List ℚ → ℚ} {table : List StoredRow}
    {q : List ℚ} {thr : ℚ} {cnt : ℕ} {row : MatchedRow}
    (h : row ∈ matchDocuments dist table q thr cnt) : thr < row.similarity := by
  unfold matchDocuments at h
  obtain ⟨r0, hr0, rfl⟩ := List.mem_map.mp h
  have h1 : r0 ∈ List.insertionSort (keyLe (fun r => dist r.embedding q))
      (table.filter (fun r => decide (1 - dist r.embedding q > thr))) :=
    List.take_subset _ _ hr0
  have h2 := ((List.perm_insertionSort _ _).subset h1)
  have h3 := (List.mem_filter.mp h2).2
  simpa using of_decide_eq_true h3

lemma matchDocuments_sorted (dist : List ℚ → List ℚ → ℚ) (table : List StoredRow)
    (q : List ℚ) (thr : ℚ) (cnt : ℕ) :
    List.Pairwise (fun a b => b.similarity ≤ a.similarity)
      (matchDocuments dist table q thr cnt) := by
  unfold matchDocuments
  apply List.pairwise_map.mpr
  have hs : List.Sorted (keyLe (fun r => dist r.embedding q))
      (List.insertionSort (keyLe (fun r => dist r.embedding q))
        (table.filter (fun r => decide (1 - dist r.embedding q > thr)))) :=
    List.sorted_insertionSort _ _
  have ht := hs.sublist (List.take_sublist cnt _)
  exact ht.imp (fun hab => by simpa using sub_le_sub_left hab 1)

lemma matchDocuments_length (dist : List ℚ → List ℚ → ℚ) (table : List StoredRow)
    (q : List ℚ) (thr : ℚ) (cnt : ℕ) :
    (matchDocuments dist table q thr cnt).length ≤ cnt := by
  unfold matchDocuments
  simp [List.length_take]

lemma matchDocuments_nil {dist : List ℚ → List ℚ → ℚ} {table : List StoredRow}
    {q : List ℚ} {thr : ℚ} (cnt : ℕ)
    (h : ∀ row ∈ table, 1 - dist row.embedding q ≤ thr) :
    matchDocuments dist table q thr cnt = [] := by
  unfold matchDocuments
  have : table.filter (fun r => decide (1 - dist r.embedding q > thr)) = [] := by
    rw [List.filter_eq_nil_iff]
    intro a ha
    simpa using not_lt.mpr (h a ha)
  rw [this]
  simp

lemma bullet_ne_empty (s : String) : "- " ++ s ≠ "" := by
  intro h
  have hlen := congrArg String.length h
  rw [String.length_append] at hlen
  rw [show ("- " : String).length = 2 from rfl,
    show ("" : String).length = 0 from rfl] at hlen
  omega

lemma search_scenario_eval :
    LocalRetriever.search 5 scenarioRetriever [1, 0] (some 2) =
      .ok [{ chunk := { page_number := 1, sentence_chunk := some "c1", chunk_text := none },
             similarity := 1, id := 0 },
           { chunk := { page_number := 3, sentence_chunk := some "c3", chunk_text := none },
             similarity := 7/10, id := 2 }] := by
  norm_num [LocalRetriever.search, topk, enumScores, dot, scoreGe, defaultChunk,
    scenarioEmb, scenarioChunks, scenarioRetriever, List.range_succ]
  rfl

end Rag

namespace Rag

/-- C1: the claim says search with top_k greater than the index size must not
crash and must return min(top_k, N) results, with top_k = 10 against a
three-passage index giving exactly 3 results.  The code passes top_k straight
to torch.topk, which rejects k beyond the score count, so that call raises
instead of returning 3 results: evaluation of the model at the Scenario B
input. -/
theorem claim_C1 :
    LocalRetriever.search 5 scenarioRetriever [1, 0] (some 10) =
      .error .topkOutOfRange := by rfl

/-- C2: search scores by the raw dot product of the query against every stored
vector, with no normalization, and selects the top_k highest-scoring entries;
on the index v1 x1 0, v2 x0 1, v3 x0.7 0.7 with query x1 0 and top_k 2 it
returns the records of v1 then v3 with scores 1.0 and 0.7. -/
theorem claim_C2 :
    (∀ (dK : Int) (r : LocalRetriever) (q : List ℚ) (t : Option Int)
        (docs : List Doc), LocalRetriever.search dK r q t = .ok docs →
        ∀ d ∈ docs, ∃ emb, r.embeddings = some emb ∧ d.id < emb.length ∧
          d.similarity = dot q (emb.getD d.id [])) ∧
    LocalRetriever.search 5 scenarioRetriever [1, 0] (some 2) =
      .ok [{ chunk := { page_number := 1, sentence_chunk := some "c1", chunk_text := none },
             similarity := 1, id := 0 },
           { chunk := { page_number := 3, sentence_chunk := some "c3", chunk_text := none },
             similarity := 7/10, id := 2 }] := by
  constructor
  · intro dK r q t docs h d hd
    obtain ⟨emb, ch, n, he, hc, hdocs, hmem⟩ := search_ok_elim h
    subst hdocs
    obtain ⟨p, hp, rfl⟩ := List.mem_map.mp hd
    have hsorted := (List.perm_insertionSort scoreGe
      (enumScores (emb.map (fun row => dot q row)))).subset (List.take_subset n _ hp)
    obtain ⟨hlt, hval⟩ := mem_enumScores hsorted
    rw [List.length_map] at hlt
    exact ⟨emb, he, hlt, hval.trans (getD_map_dot q emb p.2 hlt)⟩
  · exact search_scenario_eval

/-- C2 witness: the general conjunct applied to the concrete Scenario A run
and its first result. -/
theorem claim_C2_witness :
    ∃ emb, scenarioRetriever.embeddings = some emb ∧ (0 : ℕ) < emb.length ∧
      (1 : ℚ) = dot [1, 0] (emb.getD 0 []) :=
  claim_C2.1 5 scenarioRetriever [1, 0] (some 2) _ claim_C2.2
    { chunk := { page_number := 1, sentence_chunk := some "c1", chunk_text := none },
      similarity := 1, id := 0 } (by simp)

/-- C3: the claim says every call with top_k less than 1, including top_k = 0,
fails with InvalidTopK.  The code replaces a falsy top_k (0 as well as None)
by the configured default before selection, so top_k = 0 does not fail; what
holds is the amended statement: a negative top_k fails immediately with the
top-k out-of-range error and no result substitution, while top_k = 0 is
replaced by the default and the search proceeds as with top_k omitted. -/
theorem claim_C3 :
    (∀ (dK : Int) (emb : List (List ℚ)) (ch : List Chunk) (q : List ℚ) (t : Int),
        t < 0 → (∀ row ∈ emb, row.length = q.length) →
        LocalRetriever.search dK { embeddings := some emb, chunks := some ch } q
          (some t) = .error .topkOutOfRange) ∧
    (∀ (dK : Int) (r : LocalRetriever) (q : List ℚ),
        LocalRetriever.search dK r q (some 0) =
          LocalRetriever.search dK r q none) := by
  constructor
  · intro dK emb ch q t ht hshape
    have hall : (emb.all fun row => decide (row.length = q.length)) = true := by
      simp only [List.all_eq_true, decide_eq_true_eq]
      exact hshape
    have ht0 : ¬ t = 0 := by omega
    have hbound : ¬ ((0 : Int) ≤ t ∧ t ≤ (emb.length : Int)) :=
      fun hand => absurd hand.1 (by omega)
    simp [LocalRetriever.search, topk, hall, ht0, hbound]
  · intro dK r q
    obtain ⟨oe, oc⟩ := r
    cases oe <;> cases oc <;> simp [LocalRetriever.search]

/-- C3 counterexample: on a loaded five-passage index, search with top_k = 0
succeeds with the default five results instead of failing with InvalidTopK. -/
theorem claim_C3_counterexample :
    LocalRetriever.search 5 retriever5 [1] (some 0) =
      .ok [{ chunk := { page_number := 5, sentence_chunk := some "p5", chunk_text := none },
             similarity := 5, id := 4 },
           { chunk := { page_number := 4, sentence_chunk := some "p4", chunk_text := none },
             similarity := 4, id := 3 },
           { chunk := { page_number := 3, sentence_chunk := some "p3", chunk_text := none },
             similarity := 3, id := 2 },
           { chunk := { page_number := 2, sentence_chunk := some "p2", chunk_text := none },
             similarity := 2, id := 1 },
           { chunk := { page_number := 1, sentence_chunk := some "p1", chunk_text := none },
             similarity := 1, id := 0 }] := by
  norm_num [LocalRetriever.search, topk, enumScores, dot, scoreGe, defaultChunk,
    emb5, chunks5, retriever5, List.range_succ]
  rfl

/-- C3 witness: the negative branch of the amended claim at top_k = -1 on a
loaded one-passage index. -/
theorem claim_C3_witness :
    LocalRetriever.search 5 { embeddings := some [[(1 : ℚ)]], chunks := some [defaultChunk] }
      [1] (some (-1)) = .error .topkOutOfRange :=
  claim_C3.1 5 [[(1 : ℚ)]] [defaultChunk] [1] (-1) (by norm_num) (by simp)

/-- C4: a LocalRetriever missing embeddings or chunks rejects every search
with the not-loaded error, and after load_embeddings has populated both the
same call can succeed. -/
theorem claim_C4 :
    (∀ (dK : Int) (r : LocalRetriever) (q : List ℚ) (t : Option Int),
        r.embeddings = none ∨ r.chunks = none →
        LocalRetriever.search dK r q t = .error .notLoaded) ∧
    LocalRetriever.search 5
        ((LocalRetriever.mk none none).load_embeddings scenarioEmb scenarioChunks)
        [1, 0] (some 2) =
      .ok [{ chunk := { page_number := 1, sentence_chunk := some "c1", chunk_text := none },
             similarity := 1, id := 0 },
           { chunk := { page_number := 3, sentence_chunk := some "c3", chunk_text := none },
             similarity := 7/10, id := 2 }] := by
  constructor
  · intro dK r q t h
    obtain ⟨oe, oc⟩ := r
    rcases h with h | h
    · simp only at h
      subst h
      rfl
    · simp only at h
      subst h
      cases oe <;> rfl
  · exact search_scenario_eval

/-- C4 witness: the not-loaded conjunct applied to a freshly constructed
retriever. -/
theorem claim_C4_witness :
    LocalRetriever.search 5 { embeddings := none, chunks := none } [1] none =
      .error .notLoaded :=
  claim_C4.1 5 { embeddings := none, chunks := none } [1] none (Or.inl rfl)

/-- C5: format_context of either backend returns the fixed sentinel on an
empty result sequence, never returns the empty string, and renders a
non-empty sequence as bullet items of each result's text joined by
newlines. -/
theorem claim_C5 :
    LocalRetriever.format_context [] = "No relevant context found." ∧
    SupabaseRetriever.format_context [] = "No relevant context found." ∧
    (∀ docs : List Doc, LocalRetriever.format_context docs ≠ "") ∧
    (∀ docs : List MatchedRow, SupabaseRetriever.format_context docs ≠ "") ∧
    (∀ (d : Doc) (ds : List Doc),
        LocalRetriever.format_context (d :: ds) =
          "- " ++ String.intercalate "\n- "
            ((d :: ds).map (fun x => x.chunk.sentence_chunk.getD (x.chunk.chunk_text.getD "")))) ∧
    (∀ (m : MatchedRow) (ms : List MatchedRow),
        SupabaseRetriever.format_context (m :: ms) =
          "- " ++ String.intercalate "\n- " ((m :: ms).map (fun x => x.chunk_text))) := by
  refine ⟨rfl, rfl, ?_, ?_, fun d ds => rfl, fun m ms => rfl⟩
  · intro docs
    cases docs with
    | nil => decide
    | cons d ds => exact bullet_ne_empty _
  · intro docs
    cases docs with
    | nil => decide
    | cons m ms => exact bullet_ne_empty _

end Rag

namespace Rag

/-- C6: every successful search of either backend returns its results in
non-increasing similarity order, and every in-memory result carries as id the
original position of its passage, under which the backing chunk collection
dereferences to the record's own chunk. -/
theorem claim_C6 :
    (∀ (dK : Int) (r : LocalRetriever) (q : List ℚ) (t : Option Int)
        (docs : List Doc), LocalRetriever.search dK r q t = .ok docs →
        List.Pairwise (fun a b => b.similarity ≤ a.similarity) docs ∧
        ∀ d ∈ docs, ∃ ch, r.chunks = some ch ∧ d.id < ch.length ∧
          d.chunk = ch.getD d.id defaultChunk) ∧
    (∀ (dist : List ℚ → List ℚ → ℚ) (table : List StoredRow) (dK : Int)
        (q : List ℚ) (t : Option Int) (thr : ℚ) (docs : List MatchedRow),
        SupabaseRetriever.search dist table dK q t thr = .ok docs →
        List.Pairwise (fun a b => b.similarity ≤ a.similarity) docs) := by
  constructor
  · intro dK r q t docs h
    obtain ⟨emb, ch, n, he, hc, hdocs, hmem⟩ := search_ok_elim h
    subst hdocs
    constructor
    · apply List.pairwise_map.mpr
      have hs := List.sorted_insertionSort scoreGe
        (enumScores (emb.map (fun row => dot q row)))
      have ht := hs.sublist (List.take_sublist n _)
      exact ht.imp (fun hab => hab)
    · intro d hd
      obtain ⟨p, hp, rfl⟩ := List.mem_map.mp hd
      exact ⟨ch, hc, hmem p hp, rfl⟩
  · intro dist table dK q t thr docs h
    simp only [SupabaseRetriever.search] at h
    split at h
    · replace h := Except.ok.inj h
      exact h ▸ matchDocuments_sorted dist table q thr _
    · simp at h

/-- C6 witness: the in-memory conjunct applied to the Scenario A run. -/
theorem claim_C6_witness :
    List.Pairwise (fun a b : Doc => b.similarity ≤ a.similarity)
      [{ chunk := { page_number := 1, sentence_chunk := some "c1", chunk_text := none },
         similarity := 1, id := 0 },
       { chunk := { page_number := 3, sentence_chunk := some "c3", chunk_text := none },
         similarity := 7/10, id := 2 }] :=
  (claim_C6.1 5 scenarioRetriever [1, 0] (some 2) _ search_scenario_eval).1

/-- C7: the retriever factory is a pure mapping from the mode string: mode
local yields the in-memory retriever built from the given embeddings and
chunks, mode supabase yields the remote retriever, and every other mode fails
fast with the invalid-configuration error, no retriever being constructed. -/
theorem claim_C7 :
    ∀ (emb : Option (List (List ℚ))) (ch : Option (List Chunk)),
      get_retriever "local" emb ch =
        .ok (.localR { embeddings := emb, chunks := ch }) ∧
      get_retriever "supabase" emb ch = .ok .supabaseR ∧
      ∀ mode : String, mode ≠ "local" → mode ≠ "supabase" →
        get_retriever mode emb ch = .error .invalidConfiguration := by
  intro emb ch
  refine ⟨rfl, rfl, ?_⟩
  intro mode h1 h2
  simp [get_retriever, h1, h2]

/-- C7 witness: the unrecognized-mode conjunct at the mode string other. -/
theorem claim_C7_witness :
    get_retriever "other" none none = .error .invalidConfiguration :=
  (claim_C7 none none).2.2 "other" (by decide) (by decide)

/-- C8: match_documents returns only rows whose similarity 1 - distance
strictly exceeds the threshold, ordered by distance ascending hence
similarity descending, capped at the requested count; and when no stored row
exceeds the default threshold 0.5 the remote search returns the empty list as
a valid result, not an error. -/
theorem claim_C8 :
    (∀ (dist : List ℚ → List ℚ → ℚ) (table : List StoredRow) (q : List ℚ)
        (thr : ℚ) (cnt : ℕ),
        (∀ row ∈ matchDocuments dist table q thr cnt, thr < row.similarity) ∧
        List.Pairwise (fun a b => b.similarity ≤ a.similarity)
          (matchDocuments dist table q thr cnt) ∧
        (matchDocuments dist table q thr cnt).length ≤ cnt) ∧
    (∀ (dist : List ℚ → List ℚ → ℚ) (table : List StoredRow) (dK : Int)
        (q : List ℚ),
        (∀ row ∈ table, 1 - dist row.embedding q ≤ similarity_threshold_default) →
        SupabaseRetriever.search dist table dK q (some 5)
          similarity_threshold_default = .ok []) := by
  constructor
  · intro dist table q thr cnt
    exact ⟨fun row hr => matchDocuments_mem hr,
      matchDocuments_sorted dist table q thr cnt,
      matchDocuments_length dist table q thr cnt⟩
  · intro dist table dK q h
    simp only [SupabaseRetriever.search]
    norm_num
    exact matchDocuments_nil _ h

/-- C8 witness: the empty-result conjunct on a one-row table whose only row
has similarity 0 under the constant-distance operator. -/
theorem claim_C8_witness :
    SupabaseRetriever.search (fun _ _ => 1) [rowA] 5 [1] (some 5)
      similarity_threshold_default = .ok [] :=
  claim_C8.2 (fun _ _ => 1) [rowA] 5 [1]
    (by intro row hr; norm_num [similarity_threshold_default])

/-- C9: the claim says a failed chunk embedding is propagated to the caller
rather than a zero vector being inserted.  The except branch of
GeminiEmbedder.embed_chunks instead appends np.zeros(embedding_dimension) and
returns normally: evaluation of the model with an embedder that fails on its
single chunk. -/
theorem claim_C9 :
    GeminiEmbedder.embed_chunks (fun _ => .error "boom") 3 ["x"] = [[0, 0, 0]] := by
  rfl

/-- C10: both backends substitute the configured default for a top_k of None
and likewise for the falsy value 0; the default is 5 when the environment
variable is unset and the environment value otherwise; and a search with
top_k = 0 against a six-passage index proceeds with the default count 5. -/
theorem claim_C10 :
    (∀ (dK : Int) (r : LocalRetriever) (q : List ℚ),
        LocalRetriever.search dK r q none = LocalRetriever.search dK r q (some 0)) ∧
    (∀ (dist : List ℚ → List ℚ → ℚ) (table : List StoredRow) (dK : Int)
        (q : List ℚ) (thr : ℚ),
        SupabaseRetriever.search dist table dK q none thr =
          SupabaseRetriever.search dist table dK q (some 0) thr) ∧
    Settings.TOP_K_RESULTS [] = some 5 ∧
    Settings.TOP_K_RESULTS [("TOP_K_RESULTS", "8")] = some 8 ∧
    (LocalRetriever.search 5 retriever6 [1] (some 0)).map List.length = .ok 5 := by
  refine ⟨?_, ?_, by decide, by decide, ?_⟩
  · intro dK r q
    obtain ⟨oe, oc⟩ := r
    cases oe <;> cases oc <;> simp [LocalRetriever.search]
  · intro dist table dK q thr
    simp [SupabaseRetriever.search]
  · norm_num [LocalRetriever.search, topk, enumScores, dot, scoreGe, defaultChunk,
      emb6, chunks6, retriever6, List.range_succ]
    rfl

end Rag

namespace Rag

/-- C5 witness: the non-empty-output conjunct applied to the empty list. -/
theorem claim_C5_witness : LocalRetriever.format_context [] ≠ "" :=
  claim_C5.2.2.1 []

end Rag
